import Mathlib

/-!
Shallow embedding of the orbtrace CMSIS-DAP command/response state machine
(src/orbtrace/nmigen/cmsis_dap.py), together with proofs about its behaviour.

The source is an nMigen hardware module clocked in the "usb" domain.  The
embedding follows nMigen register semantics faithfully:

* every right-hand side and every condition reads the *current* register
  values (the state `s` at the start of the clock cycle);
* assignments accumulate into the next-state record `t`, and when the same
  signal is assigned twice in one cycle the later assignment (in program
  order) wins, exactly as in nMigen;
* every assignment truncates its value to the signal's declared bit width.

Signals produced by the external debug-interface engine (`done`, `ack`,
`perr`, `dread`, `again`, `ignoreData`, `postedMode`) and by the USB host
stream (`streamOut.valid/first/last/payload`, `streamIn.ready`) are inputs
of one clock cycle; registers written by the core (including the registers
of the dbgIF submodule that the core drives: `command`, `apndp`, `rnw`,
`addr32`, `dwrite`, `go`, `pinsin`, `countdown`) are part of the state.
`streamOut.ready` is combinational: the negation of the core's `busy`
register, as in the source.
-/

namespace CmsisDap

/-- Read `n` bits of `v` starting at bit `lo` (an nMigen `bit_select` /
`word_select` read, zero for out-of-range bits). -/
def getBits (v lo n : Nat) : Nat := (v >>> lo) % 2 ^ n

/-- Replace the `n` bits of `v` starting at bit `lo` by `x` (truncated to
`n` bits), leaving all other bits unchanged. -/
def setBits (v lo n x : Nat) : Nat :=
  v % 2 ^ lo + (x % 2 ^ n) * 2 ^ lo + (v >>> (lo + n)) * 2 ^ (lo + n)

/-- Read one bit of `v` as a `Bool`. -/
def getBit (v k : Nat) : Bool := (v >>> k) % 2 == 1

/-- Set one bit of `v` from a `Bool`. -/
def setBit (v k : Nat) (b : Bool) : Nat := setBits v k 1 (if b then 1 else 0)

/-- 16-bit decrement by one (nMigen wrap-around subtraction). -/
def dec16 (v : Nat) : Nat := (v + 65535) % 65536

-- Default configuration information (cmsis_dap.py lines 20-27)

def DAP_CONNECT_DEFAULT : Nat := 1
/-- The 40-bit value of `Cat(C(0x31,8),C(0x2e,8),C(0x30,8),C(0x30,8),C(0,8))`:
bytes 0x31, 0x2e, 0x30, 0x30, 0x00 in little-endian order. -/
def DAP_VERSION_STRING : Nat := 0x31 + 0x2e * 2 ^ 8 + 0x30 * 2 ^ 16 + 0x30 * 2 ^ 24
def DAP_CAPABILITIES : Nat := 0x01
def DAP_TD_TIMER_FREQ : Nat := 0x3B9ACA00
def DAP_TB_SIZE : Nat := 500
def DAP_MAX_PACKET_COUNT : Nat := 1
def DAP_V1_MAX_PACKET_SIZE : Nat := 64
def DAP_V2_MAX_PACKET_SIZE : Nat := 500

-- CMSIS-DAP protocol message opcodes (cmsis_dap.py lines 32-61)

def DAP_Info : Nat := 0x00
def DAP_HostStatus : Nat := 0x01
def DAP_Connect : Nat := 0x02
def DAP_Disconnect : Nat := 0x03
def DAP_TransferConfigure : Nat := 0x04
def DAP_Transfer : Nat := 0x05
def DAP_TransferBlock : Nat := 0x06
def DAP_TransferAbort : Nat := 0x07
def DAP_WriteABORT : Nat := 0x08
def DAP_Delay : Nat := 0x09
def DAP_ResetTarget : Nat := 0x0a
def DAP_SWJ_Pins : Nat := 0x10
def DAP_SWJ_Clock : Nat := 0x11
def DAP_SWJ_Sequence : Nat := 0x12
def DAP_SWD_Configure : Nat := 0x13
def DAP_JTAG_Sequence : Nat := 0x14
def DAP_JTAG_Configure : Nat := 0x15
def DAP_JTAG_IDCODE : Nat := 0x16
def DAP_SWO_Transport : Nat := 0x17
def DAP_SWO_Mode : Nat := 0x18
def DAP_SWO_Baudrate : Nat := 0x19
def DAP_SWO_Control : Nat := 0x1a
def DAP_SWO_Status : Nat := 0x1b
def DAP_SWO_Data : Nat := 0x1c
def DAP_SWD_Sequence : Nat := 0x1d
def DAP_SWO_ExtendedStatus : Nat := 0x1e
def DAP_ExecuteCommands : Nat := 0x7f
def DAP_QueueCommands : Nat := 0x7e
def DAP_Invalid : Nat := 0xff

-- Commands to the dbgIF (cmsis_dap.py lines 66-78)

def CMD_RESET : Nat := 0
def CMD_PINS_WRITE : Nat := 1
def CMD_TRANSACT : Nat := 2
def CMD_SET_SWD : Nat := 3
def CMD_SET_JTAG : Nat := 4
def CMD_SET_SWJ : Nat := 5
def CMD_SET_PWRDOWN : Nat := 6
def CMD_SET_CLK : Nat := 7
def CMD_SET_CFG : Nat := 8
def CMD_WAIT : Nat := 9
def CMD_CLR_ERR : Nat := 10
def CMD_SET_RST_TMR : Nat := 11
def CMD_SET_TFR_CFG : Nat := 12

/-- The states of the `m.FSM` in `CMSIS_DAP.elaborate`.  `idle` is the first
declared state and therefore the reset state. -/
inductive FsmState where
  | idle
  | respond
  | rxParams
  | swjPinsProc
  | swoDataProc
  | swjSeqProc
  | jtagSeqProc
  | transferProc
  | blockProc
  | swdSeqGetCount
  | blockStray
  | execCmdsGetNum
  | queueCmdsGetNum
  | waitDone
  | waitConnectDone
  | errorState
  | protocolError
  deriving DecidableEq, Repr

/-- The per-cycle inputs of the core: the host-side stream signals and the
signals produced by the external dbgIF engine. -/
structure Inputs where
  soValid : Bool
  soFirst : Bool
  soLast : Bool
  soPayload : Nat
  siReady : Bool
  done : Bool
  ack : Nat
  perr : Bool
  dread : Nat
  again : Bool
  ignoreData : Bool
  postedMode : Bool
  deriving Repr

/-- The registers of the core (all usb-domain registers of `CMSIS_DAP`, the
dbgIF registers the core drives, the CDC synchroniser, the response RAM and
its synchronous read port) plus the current FSM state. -/
structure St where
  running : Bool
  connected : Bool
  isV2 : Bool
  rxBlock : Nat       -- 56 bits
  rxLen : Nat         -- 3 bits
  rxedLen : Nat       -- 3 bits
  txBlock : Nat       -- 112 bits
  txLen : Nat         -- 16 bits
  txedLen : Nat       -- 16 bits
  busy : Bool
  txb : Nat           -- 4 bits
  bitcount : Nat      -- 3 bits
  tmsValue : Bool
  tdoCapture : Bool
  tdiData : Nat       -- 8 bits
  tdoCount : Nat      -- 7 bits
  seqCount : Nat      -- 8 bits
  tckCycles : Nat     -- 6 bits
  bytebits : Nat      -- 4 bits
  dapIndex : Nat      -- 8 bits
  transferCount : Nat -- 16 bits
  mask : Nat          -- 32 bits
  retries : Nat       -- 16 bits
  matchretries : Nat  -- 16 bits
  tfrReq : Nat        -- 8 bits
  tfrData : Nat       -- 32 bits
  ndev : Nat          -- 8 bits
  irlength : Nat      -- 8 bits
  waitRetry : Nat     -- 16 bits
  matchRetry : Nat    -- 16 bits
  command : Nat       -- dbgif.command
  apndp : Bool        -- dbgif.apndp
  rnw : Bool          -- dbgif.rnw
  addr32 : Nat        -- dbgif.addr32, 2 bits
  dwrite : Nat        -- dbgif.dwrite, 32 bits
  go : Bool           -- dbgif.go
  pinsin : Nat        -- dbgif.pinsin, 16 bits
  countdown : Nat     -- dbgif.countdown, 32 bits
  doneCdc : Nat       -- done_cdc, 2 bits
  adr : Nat           -- tfrram.adr, 12 bits
  mem : Nat → Nat     -- tfrram contents, 32-bit words
  datR : Nat          -- tfrram.dat_r (synchronous, transparent read port)
  streamInValid : Bool
  streamInPayload : Nat
  streamInLast : Bool
  fsm : FsmState

/-- Power-on state: every register resets to zero, the FSM resets to `IDLE`,
and word 0 of the response RAM is initialised to 0xdeadbeef. -/
def reset : St :=
  ⟨false, false, false, 0, 0, 0, 0, 0, 0, false, 0, 0, false, false, 0, 0, 0, 0, 0,
   0, 0, 0, 0, 0, 0, 0, 0, 0, 0, 0, 0, false, false, 0, 0, false, 0, 0, 0, 0,
   (fun a => if a = 0 then 0xdeadbeef else 0), 0, false, 0, false, FsmState.idle⟩

/-- `RESP_Invalid`: stage a one-byte 0xFF response and move to `RESPOND`. -/
def respInvalid (t : St) : St :=
  { t with txBlock := setBits t.txBlock 0 8 DAP_Invalid, txLen := 1, busy := true,
           fsm := FsmState.respond }

/-- `RESP_Info`. -/
def respInfo (s t : St) : St :=
  let t := { t with fsm := FsmState.respond }
  let sub := getBits s.rxBlock 8 8
  if sub = 0x01 ∨ sub = 0x02 ∨ sub = 0x03 ∨ sub = 0x05 ∨ sub = 0x06 then
    { t with txLen := 2, txBlock := setBits t.txBlock 8 8 0 }
  else if sub = 0x04 then
    { t with txLen := 7, txBlock := setBits t.txBlock 8 48 (5 + DAP_VERSION_STRING * 2 ^ 8) }
  else if sub = 0xF0 then
    { t with txLen := 3, txBlock := setBits t.txBlock 8 16 (1 + DAP_CAPABILITIES * 2 ^ 8) }
  else if sub = 0xF1 then
    { t with txLen := 6, txBlock := setBits t.txBlock 8 48 (8 + DAP_TD_TIMER_FREQ * 2 ^ 8) }
  else if sub = 0xFD then
    { t with txLen := 6, txBlock := setBits t.txBlock 8 40 (4 + DAP_TB_SIZE * 2 ^ 8) }
  else if sub = 0xFE then
    { t with txLen := 6, txBlock := setBits t.txBlock 8 16 (1 + DAP_MAX_PACKET_COUNT * 2 ^ 8) }
  else if sub = 0xFF then
    if s.isV2 then
      { t with txLen := 6, txBlock := setBits t.txBlock 8 24 (2 + DAP_V2_MAX_PACKET_SIZE * 2 ^ 8) }
    else
      { t with txLen := 6, txBlock := setBits t.txBlock 8 24 (2 + DAP_V1_MAX_PACKET_SIZE * 2 ^ 8) }
  else respInvalid t

/-- `RESP_HostStatus`. -/
def respHostStatus (s t : St) : St :=
  let t := { t with fsm := FsmState.respond }
  let sub := getBits s.rxBlock 8 8
  if sub = 0 then { t with connected := getBits s.rxBlock 16 8 == 1 }
  else if sub = 1 then { t with running := getBits s.rxBlock 16 8 == 1 }
  else respInvalid t

/-- `RESP_Connect_Setup`.  `DAP_CAPABILITIES` has only bit 0 set and
`DAP_CONNECT_DEFAULT` is 1, so only the SWD branch of the source is
elaborated and its condition simplifies to port 0 or port 1. -/
def respConnectSetup (s t : St) : St :=
  let t := respInvalid t
  if getBits s.rxBlock 8 8 = 0 ∨ getBits s.rxBlock 8 8 = 1 then
    { t with txBlock := setBits t.txBlock 0 16 (getBits s.rxBlock 0 8 + 1 * 2 ^ 8),
             command := CMD_SET_SWD, txLen := 2, go := true,
             fsm := FsmState.waitConnectDone }
  else t

/-- `RESP_Wait_Connect_Done`. -/
def respWaitConnectDone (s t : St) : St :=
  let t := if s.go = true ∧ s.doneCdc ≠ 3 then { t with go := false } else t
  if s.go = false ∧ s.doneCdc = 3 then { t with fsm := FsmState.respond } else t

/-- `RESP_Wait_Done`. -/
def respWaitDone (i : Inputs) (s t : St) : St :=
  let t := if s.go = true ∧ s.doneCdc ≠ 3 then { t with go := false } else t
  if s.go = false ∧ s.doneCdc = 3 then
    { t with txBlock := setBit t.txBlock 8 i.perr, fsm := FsmState.respond }
  else t

/-- `RESP_Disconnect`. -/
def respDisconnect (t : St) : St :=
  { t with running := false, connected := false, fsm := FsmState.respond }

/-- `RESP_WriteABORT`. -/
def respWriteAbort (s t : St) : St :=
  { t with command := CMD_TRANSACT, apndp := false, rnw := false, addr32 := 0,
           dwrite := getBits s.rxBlock 16 32, go := true, fsm := FsmState.waitDone }

/-- `RESP_Delay`. -/
def respDelay (s t : St) : St :=
  { t with dwrite := getBits s.rxBlock 16 8 + getBits s.rxBlock 8 8 * 2 ^ 8,
           command := CMD_WAIT, go := true, fsm := FsmState.waitDone }

/-- `RESP_ResetTarget`. -/
def respResetTarget (t : St) : St :=
  { t with txBlock := setBits t.txBlock 8 16 0x8000, txLen := 3,
           command := CMD_RESET, go := true, fsm := FsmState.waitDone }

/-- `RESP_SWJ_Pins_Setup`.  Note: as in the source, the wait operand is read
from `txBlock` (not `rxBlock`), no dbgIF command is selected and `go` is not
asserted. -/
def respSwjPinsSetup (s t : St) : St :=
  { t with dwrite := getBits s.rxBlock 8 16 * 2 ^ 16,
           countdown := getBits s.txBlock 24 32, fsm := FsmState.swjPinsProc }

/-- `RESP_SWJ_Pins_Process`.  Note: as in the source, the transition to
`RESPOND` is unconditional; only the data capture is guarded by `dbg_done`. -/
def respSwjPinsProcess (i : Inputs) (s t : St) : St :=
  let t :=
    if s.doneCdc = 3 then
      { t with txBlock := setBits t.txBlock 8 8 (getBits i.dread 0 8), txLen := 2 }
    else t
  { t with fsm := FsmState.respond }

/-- `RESP_SWJ_Clock`. -/
def respSwjClock (s t : St) : St :=
  { t with dwrite := getBits s.rxBlock 8 32, command := CMD_SET_CLK, go := true,
           fsm := FsmState.waitDone }

/-- `RESP_SWJ_Sequence_Setup`. -/
def respSwjSequenceSetup (s t : St) : St :=
  { t with transferCount := if getBits s.rxBlock 8 8 ≠ 0 then getBits s.rxBlock 8 8 else 256,
           txb := 0, dwrite := 0, pinsin := 0xFF10, bitcount := 0,
           command := CMD_PINS_WRITE, fsm := FsmState.swjSeqProc }

/-- `RESP_SWJ_Sequence_Process`. -/
def respSwjSequenceProcess (i : Inputs) (s t : St) : St :=
  if s.txb = 0 then
    if s.busy = false then  -- streamOut.ready
      { t with tfrData := i.soPayload % 2 ^ 8, txb := 1, busy := true }
    else { t with busy := false }
  else if s.txb = 1 then
    { t with pinsin := setBits t.pinsin 0 2 ((s.tfrData % 2) * 2),
             tfrData := getBits s.tfrData 1 7,
             go := true,
             transferCount := dec16 s.transferCount,
             bitcount := (s.bitcount + 1) % 8,
             txb := 2 }
  else if s.txb = 2 then
    let t := if s.doneCdc ≠ 3 then { t with go := false } else t
    if s.go = false ∧ s.doneCdc = 3 then
      { t with pinsin := setBit t.pinsin 0 true, go := true, txb := 3 }
    else t
  else if s.txb = 3 then
    let t := if s.doneCdc ≠ 3 then { t with go := false } else t
    if s.go = false ∧ s.doneCdc = 3 then
      if s.transferCount ≠ 0 then { t with txb := if s.bitcount ≠ 0 then 1 else 0 }
      else { t with fsm := FsmState.waitDone }
    else t
  else t

/-- `RESP_SWD_Configure`. -/
def respSwdConfigure (s t : St) : St :=
  { t with dwrite := getBits s.rxBlock 8 8, command := CMD_SET_CFG, go := true,
           fsm := FsmState.waitDone }

/-- `RESP_SWO_Transport`. -/
def respSwoTransport (s t : St) : St :=
  let t := if getBits s.rxBlock 8 8 > 2 then { t with txBlock := setBits t.txBlock 8 8 0xFF } else t
  { t with fsm := FsmState.respond }

/-- `RESP_SWO_Mode`. -/
def respSwoMode (s t : St) : St :=
  let t := if getBits s.rxBlock 8 8 > 2 then { t with txBlock := setBits t.txBlock 8 8 0xFF } else t
  { t with fsm := FsmState.respond }

/-- `RESP_SWO_Baudrate`. -/
def respSwoBaudrate (s t : St) : St :=
  { t with txBlock := s.rxBlock % 2 ^ 56, txLen := 5, fsm := FsmState.respond }

/-- `RESP_SWO_Control`. -/
def respSwoControl (s t : St) : St :=
  let t := if getBits s.rxBlock 8 8 > 1 then { t with txBlock := setBits t.txBlock 8 8 0xFF } else t
  { t with fsm := FsmState.respond }

/-- `RESP_SWO_Status`. -/
def respSwoStatus (t : St) : St :=
  { t with txBlock := setBits t.txBlock 8 40 (0x11223344 * 2 ^ 8), txLen := 6,
           fsm := FsmState.respond }

/-- `RESP_SWO_ExtendedStatus`. -/
def respSwoExtendedStatus (s t : St) : St :=
  if getBits s.rxBlock 8 8 &&& 0xF8 ≠ 0 then respInvalid t
  else
    { t with txBlock := setBits t.txBlock 8 104
               (0x11223344 * 2 ^ 8 + 0x55667788 * 2 ^ 40 + 0x99aabbcc * 2 ^ 72),
             txLen := 14, fsm := FsmState.respond }

/-- `RESP_SWO_Data_Setup`.  `maxSWObytes` is combinational in the source. -/
def respSwoDataSetup (s t : St) : St :=
  let mx := getBits s.rxBlock 8 16
  { t with txLen := if mx < 100 then mx else 100, txb := 0, fsm := FsmState.swoDataProc }

/-- `RESP_SWO_Data_Process`. -/
def respSwoDataProcess (i : Inputs) (s t : St) : St :=
  if i.siReady then
    let t := { t with streamInLast := false }
    let t :=
      if s.txb = 0 then { t with streamInPayload := DAP_SWO_Data, txb := 1 }
      else if s.txb = 1 then { t with streamInPayload := 0, txb := 2 }
      else if s.txb = 2 then { t with streamInPayload := getBits s.txLen 0 8, txb := 3 }
      else if s.txb = 3 then
        let t := { t with streamInPayload := getBits s.txLen 8 8,
                          txb := if s.txLen ≠ 0 then 4 else 5 }
        if s.txLen = 0 then { t with streamInLast := true } else t
      else if s.txb = 4 then
        let t := { t with streamInPayload := 42, txLen := dec16 s.txLen }
        if s.txLen = 1 then { t with streamInLast := true, txb := 5 } else t
      else if s.txb = 5 then { t with fsm := FsmState.idle }
      else t
    if s.txb ≠ 5 then { t with streamInValid := true } else t
  else t

/-- `RESP_JTAG_Configure`. -/
def respJtagConfigure (s t : St) : St :=
  { t with irlength := getBits s.rxBlock 16 8, ndev := getBits s.rxBlock 8 8,
           fsm := FsmState.respond }

/-- `RESP_JTAG_IDCODE`. -/
def respJtagIdcode (t : St) : St :=
  { t with txBlock := setBits t.txBlock 16 32 0x44332211, txLen := 6,
           fsm := FsmState.respond }

/-- `RESP_TransferConfigure`. -/
def respTransferConfigure (s t : St) : St :=
  { t with waitRetry := getBits s.rxBlock 16 16, matchRetry := getBits s.rxBlock 32 16,
           dwrite := getBits s.rxBlock 8 8, command := CMD_SET_TFR_CFG, go := true,
           fsm := FsmState.waitDone }

/-- `RESP_Transfer_Setup`. -/
def respTransferSetup (s t : St) : St :=
  let t := { t with dapIndex := getBits s.rxBlock 8 8,
                    transferCount := getBits s.rxBlock 16 8,
                    adr := 0, busy := true, txb := 0 }
  if getBits s.rxBlock 16 8 ≠ 0 then { t with fsm := FsmState.transferProc }
  else
    { t with txBlock := setBits t.txBlock 16 8 1, busy := false, txLen := 3,
             fsm := FsmState.respond }

/-- `RESP_Transfer_Process`. -/
def respTransferProcess (i : Inputs) (s t : St) : St :=
  let t := { t with busy := true, streamInLast := false }
  if s.txb = 0 then
    if s.busy = true then { t with busy := false }  -- not streamOut.ready
    else
      let t := { t with tfrReq := i.soPayload % 2 ^ 8, retries := 0,
                        txBlock := setBits t.txBlock 8 8 (getBits s.txBlock 8 8 + 1) }
      if getBit i.soPayload 1 = false ∨ getBit i.soPayload 4 = true ∨
         getBit i.soPayload 5 = true then
        { t with txb := 1 }
      else
        { t with txb := 5, busy := true }
  else if s.txb = 1 ∨ s.txb = 2 ∨ s.txb = 3 ∨ s.txb = 4 then
    if s.busy = false then  -- streamOut.ready
      let t := { t with tfrData := setBits t.tfrData (8 * (s.txb - 1)) 8 (i.soPayload % 2 ^ 8),
                        txb := (s.txb + 1) % 16 }
      -- The guard below mirrors the source's `txb == 5` test, which cannot
      -- hold inside this case (txb is 1..4 here), so the branch is dead.
      if getBit s.tfrReq 5 = true ∧ s.txb = 5 then
        { t with mask := i.soPayload % 2 ^ 8 + getBits s.tfrData 0 24 * 2 ^ 8, txb := 0 }
      else t
    else { t with busy := false }
  else if s.txb = 5 then
    { t with command := CMD_TRANSACT, apndp := getBit s.tfrReq 0, rnw := getBit s.tfrReq 1,
             addr32 := getBits s.tfrReq 2 2, dwrite := s.tfrData, go := true,
             txb := (s.txb + 1) % 16 }
  else if s.txb = 6 then
    if s.doneCdc ≠ 3 then { t with go := false, txb := 7 } else t
  else if s.txb = 7 then
    if s.doneCdc = 3 then
      let t := { t with txBlock := setBits t.txBlock 16 8
                          (i.ack % 8 + (if i.perr then 8 else 0)) }
      if i.ack % 8 = 2 then
        { t with retries := (s.retries + 1) % 2 ^ 16,
                 txb := if s.retries < s.waitRetry then 5 else 8 }
      else if getBit s.tfrReq 4 = true then
        if (i.dread % 2 ^ 32) &&& s.mask ≠ s.tfrData ∧ s.matchretries < s.matchRetry then
          { t with txBlock := setBit t.txBlock 21 true, txb := 8 }
        else { t with txb := 5 }
      else
        let t := if i.again = true ∨ (i.ignoreData = false ∧ s.rnw = true) then
                   { t with adr := (s.adr + 1) % 2 ^ 12 }
                 else t
        if i.again = true then { t with txb := 5 }
        else
          let t := { t with transferCount := dec16 s.transferCount }
          if i.ack % 8 = 1 ∧ i.perr = false ∧ s.transferCount > 1 then { t with txb := 0 }
          else if i.postedMode = true then
            { t with tfrReq := 0x0E, retries := 0, txb := 5 }
          else
            { t with transferCount := (s.adr + (if s.rnw then 1 else 0)) % 2 ^ 16, txb := 8 }
    else t
  else if s.txb = 8 ∨ s.txb = 9 ∨ s.txb = 10 then
    let t := { t with adr := 0 }
    if i.siReady then
      let t := { t with streamInPayload := getBits s.txBlock (8 * (s.txb - 8)) 8,
                        streamInValid := true, txb := (s.txb + 1) % 16 }
      if s.txb = 10 ∧ s.transferCount = 0 then
        { t with streamInLast := true, busy := false, fsm := FsmState.idle }
      else t
    else t
  else if s.txb = 11 then
    { t with transferCount := dec16 s.transferCount, txb := (s.txb + 1) % 16 }
  else  -- txb = 12, 13, 14, 15
    if i.siReady then
      let t := { t with streamInPayload := getBits s.datR (8 * (s.txb - 12)) 8,
                        streamInValid := true, txb := (s.txb + 1) % 16 }
      if s.txb = 15 then
        if s.transferCount = 0 then
          { t with streamInLast := true, busy := false, fsm := FsmState.idle }
        else { t with adr := (s.adr + 1) % 2 ^ 12, txb := 11 }
      else t
    else t

/-- `RESP_TransferBlock_Setup`.  The source assigns
`txb := Mux(tfrReq.bit_select(33,1), 4, 0)`, but `tfrReq` is an 8-bit
signal, so the selector is an empty slice reading as zero: `txb := 0`. -/
def respTransferBlockSetup (s t : St) : St :=
  let t := { t with adr := 0, command := CMD_TRANSACT, retries := 0,
                    dapIndex := getBits s.rxBlock 8 8,
                    transferCount := getBits s.rxBlock 16 16,
                    apndp := getBit s.rxBlock 32, rnw := getBit s.rxBlock 33,
                    addr32 := getBits s.rxBlock 34 2,
                    txBlock := setBits t.txBlock 8 16 0,
                    txb := 0 }
  if getBits s.rxBlock 16 16 ≠ 0 then { t with fsm := FsmState.blockProc }
  else { t with txBlock := setBits t.txBlock 8 24 1, txLen := 4, fsm := FsmState.respond }

/-- `RESP_TransferBlock_Process`. -/
def respTransferBlockProcess (i : Inputs) (s t : St) : St :=
  let t := { t with busy := true, streamInLast := false }
  if s.txb = 0 ∨ s.txb = 1 ∨ s.txb = 2 ∨ s.txb = 3 then
    if s.busy = false then  -- streamOut.ready
      { t with tfrData := setBits t.tfrData (8 * s.txb) 8 (i.soPayload % 2 ^ 8),
               txb := (s.txb + 1) % 16 }
    else { t with busy := false }
  else if s.txb = 4 then
    { t with txBlock := setBits t.txBlock 8 16 (getBits s.txBlock 8 16 + 1),
             dwrite := s.tfrData, go := true, retries := (s.retries + 1) % 2 ^ 16,
             txb := 5 }
  else if s.txb = 5 then
    if s.doneCdc ≠ 3 then { t with go := false, txb := 6 } else t
  else if s.txb = 6 then
    if s.doneCdc = 3 then
      let t := { t with txBlock := setBits t.txBlock 24 8
                          (i.ack % 8 + (if i.perr then 8 else 0)) }
      if i.ack % 8 = 2 then
        { t with txb := if s.retries < s.waitRetry then 4 else 7 }
      else
        let t := if i.ignoreData = false ∧ s.rnw = true then
                   { t with adr := (s.adr + 1) % 2 ^ 12 }
                 else t
        if i.again = true then { t with retries := 0, go := true, txb := 5 }
        else
          let t := { t with transferCount := dec16 s.transferCount }
          if i.ack % 8 = 1 ∧ i.perr = false ∧ s.transferCount > 1 then
            { t with txb := if s.rnw then 4 else 0 }
          else if i.postedMode = true then
            { t with txBlock := setBits t.txBlock 8 16 (dec16 (getBits s.txBlock 8 16)),
                     rnw := true, retries := 0, apndp := false, addr32 := 3, txb := 4 }
          else
            { t with transferCount := (s.adr + (if s.rnw then 1 else 0)) % 2 ^ 16,
                     adr := 0, txb := 7 }
    else t
  else if s.txb = 7 ∨ s.txb = 8 ∨ s.txb = 9 ∨ s.txb = 10 then
    let t :=
      if i.siReady then
        { t with streamInPayload := getBits s.txBlock (8 * (s.txb - 7)) 8,
                 streamInValid := true, txb := (s.txb + 1) % 16 }
      else t
    if s.txb = 10 ∧ s.rnw = false then { t with streamInLast := true, fsm := FsmState.idle }
    else t
  else if s.txb = 11 then
    { t with transferCount := dec16 s.transferCount, txb := 12 }
  else  -- txb = 12, 13, 14, 15
    if i.siReady then
      let t := { t with streamInPayload := getBits s.datR (8 * (s.txb - 12)) 8,
                        streamInValid := true, txb := (s.txb + 1) % 16 }
      if s.txb = 15 then
        if s.transferCount = 0 then { t with streamInLast := true, fsm := FsmState.idle }
        else { t with txb := 11, adr := (s.adr + 1) % 2 ^ 12 }
      else t
    else t

/-- `RESP_JTAG_Sequence_Setup`. -/
def respJtagSequenceSetup (s t : St) : St :=
  { t with seqCount := getBits s.rxBlock 8 8, tdoCount := 16,
           txBlock := t.txBlock % 2 ^ 16, txb := 0, fsm := FsmState.jtagSeqProc }

/-- `RESP_JTAG_Sequence_PROCESS`. -/
def respJtagSequenceProcess (i : Inputs) (s t : St) : St :=
  let t := { t with busy := true }
  if s.seqCount = 0 then
    { t with txLen := (s.tdoCount + 7) / 8, busy := false, fsm := FsmState.respond }
  else
    if s.txb = 0 then
      let t := { t with busy := false }
      let t :=
        if s.busy = false then  -- streamOut.ready
          { t with tckCycles := getBits i.soPayload 0 6, tmsValue := getBit i.soPayload 6,
                   tdoCapture := getBit i.soPayload 7, txb := 1 }
        else t
      { t with tdoCount := (s.tdoCount + 7) &&& 0x78 }
    else if s.txb = 1 then
      let t := { t with busy := false }
      if s.busy = false then
        { t with tdiData := i.soPayload % 2 ^ 8, txb := 2, busy := true,
                 bytebits := if s.tckCycles = 0 ∨ s.tckCycles > 7 then 8 else s.tckCycles }
      else t
    else if s.txb = 2 then
      let t := { t with tckCycles := (s.tckCycles + 63) % 64,
                        bytebits := (s.bytebits + 15) % 16 }
      let t := if s.bytebits = 1 then { t with txb := 1 } else t
      let t :=
        if s.tdoCapture = true then
          { t with tdoCount := (s.tdoCount + 1) % 128,
                   txBlock := if s.tdoCount < 112 then setBit t.txBlock s.tdoCount (s.bytebits == 1)
                              else t.txBlock }
        else t
      let t := { t with tdiData := getBits s.tdiData 1 7 }
      if s.tckCycles = 1 then { t with seqCount := (s.seqCount + 255) % 256, txb := 0 }
      else t
    else t

/-- The `IDLE` state of the FSM: opcode identification and frame-length
lookup. -/
def stepIdle (i : Inputs) (_s t : St) : St :=
  let t := { t with txedLen := 0, busy := false }
  if i.soValid = true ∧ i.soFirst = true then
    let pay := i.soPayload % 2 ^ 8
    let t := { t with fsm := FsmState.protocolError, rxedLen := 1,
                      rxBlock := setBits t.rxBlock 0 8 pay,
                      txBlock := setBits t.txBlock 0 16 pay,
                      txLen := 2 }
    if pay = DAP_Disconnect ∨ pay = DAP_ResetTarget ∨ pay = DAP_SWO_Status ∨
       pay = DAP_TransferAbort then
      { t with rxLen := 1, fsm := FsmState.rxParams }
    else if pay = DAP_Info ∨ pay = DAP_Connect ∨ pay = DAP_SWD_Configure ∨
            pay = DAP_SWO_Transport ∨ pay = DAP_SWJ_Sequence ∨ pay = DAP_SWO_Mode ∨
            pay = DAP_SWO_Control ∨ pay = DAP_SWO_ExtendedStatus ∨
            pay = DAP_JTAG_IDCODE ∨ pay = DAP_JTAG_Sequence then
      let t := { t with rxLen := 2 }
      if i.soLast = false then { t with fsm := FsmState.rxParams } else t
    else if pay = DAP_HostStatus ∨ pay = DAP_SWO_Data ∨ pay = DAP_Delay ∨
            pay = DAP_JTAG_Configure ∨ pay = DAP_Transfer then
      let t := { t with rxLen := 3 }
      if i.soLast = false then { t with fsm := FsmState.rxParams } else t
    else if pay = DAP_SWO_Baudrate ∨ pay = DAP_SWJ_Clock ∨ pay = DAP_TransferBlock then
      let t := { t with rxLen := 5 }
      if i.soLast = false then { t with fsm := FsmState.rxParams } else t
    else if pay = DAP_WriteABORT ∨ pay = DAP_TransferConfigure then
      let t := { t with rxLen := 6 }
      if i.soLast = false then { t with fsm := FsmState.rxParams } else t
    else if pay = DAP_SWJ_Pins then
      let t := { t with rxLen := 7 }
      if i.soLast = false then { t with fsm := FsmState.rxParams } else t
    else if pay = DAP_SWD_Sequence then
      if i.soLast = false then { t with fsm := FsmState.swdSeqGetCount } else t
    else if pay = DAP_ExecuteCommands then
      if i.soLast = false then { t with fsm := FsmState.execCmdsGetNum } else t
    else if pay = DAP_QueueCommands then
      if i.soLast = false then { t with fsm := FsmState.queueCmdsGetNum } else t
    else respInvalid t
  else t

/-- The `RESPOND` state of the FSM: the response streamer. -/
def stepRespond (i : Inputs) (s t : St) : St :=
  if s.txedLen < s.txLen then
    if i.siReady then
      { t with streamInPayload := getBits s.txBlock (8 * s.txedLen) 8,
               txedLen := (s.txedLen + 1) % 2 ^ 16,
               streamInLast := s.txedLen + 1 == s.txLen,
               streamInValid := true }
    else t
  else
    { t with streamInValid := false, streamInLast := false, rxedLen := 0, busy := false,
             fsm := FsmState.idle }

/-- The `RxParams` state of the FSM: parameter accumulation and the command
dispatcher. -/
def stepRxParams (i : Inputs) (s t : St) : St :=
  if s.rxedLen = s.rxLen then
    let op := getBits s.rxBlock 0 8
    if op = DAP_Info then respInfo s t
    else if op = DAP_HostStatus then respHostStatus s t
    else if op = DAP_Connect then respConnectSetup s t
    else if op = DAP_Disconnect then respDisconnect t
    else if op = DAP_WriteABORT then respWriteAbort s t
    else if op = DAP_Delay then respDelay s t
    else if op = DAP_ResetTarget then respResetTarget t
    else if op = DAP_SWJ_Pins then respSwjPinsSetup s t
    else if op = DAP_SWJ_Clock then respSwjClock s t
    else if op = DAP_SWJ_Sequence then respSwjSequenceSetup s t
    else if op = DAP_SWD_Configure then respSwdConfigure s t
    else if op = DAP_SWO_Transport then respSwoTransport s t
    else if op = DAP_SWO_Mode then respSwoMode s t
    else if op = DAP_SWO_Baudrate then respSwoBaudrate s t
    else if op = DAP_SWO_Control then respSwoControl s t
    else if op = DAP_SWO_Status then respSwoStatus t
    else if op = DAP_SWO_ExtendedStatus then respSwoExtendedStatus s t
    else if op = DAP_SWO_Data then respSwoDataSetup s t
    else if op = DAP_JTAG_Sequence then respJtagSequenceSetup s t
    else if op = DAP_JTAG_Configure then respJtagConfigure s t
    else if op = DAP_JTAG_IDCODE then respJtagIdcode t
    else if op = DAP_TransferConfigure then respTransferConfigure s t
    else if op = DAP_Transfer then respTransferSetup s t
    else if op = DAP_TransferBlock then respTransferBlockSetup s t
    else respInvalid t
  else if i.soValid = true then
    let t := { t with rxBlock := setBits t.rxBlock (8 * s.rxedLen) 8 (i.soPayload % 2 ^ 8),
                      rxedLen := (s.rxedLen + 1) % 8 }
    let t := if s.rxedLen + 1 = s.rxLen then { t with busy := true } else t
    if i.soLast = true then
      if s.rxedLen + 1 ≠ s.rxLen then respInvalid t else t
    else t
  else t

/-- `tfrram.dat_w` is combinational: it carries `dbgif.dread` while one of the
two transfer process states drives it, and 0 otherwise. -/
def dapDatW (i : Inputs) (s : St) : Nat :=
  if s.fsm = FsmState.transferProc ∨ s.fsm = FsmState.blockProc then i.dread % 2 ^ 32 else 0

/-- One clock cycle of the usb domain.  The pre-FSM section applies the
unconditional assignments of `elaborate`: the `streamIn.valid` default, the
two-stage `done` synchroniser, the RAM write strobe `we = (done_cdc == 0b10)`
and the transparent synchronous read port. -/
def step (i : Inputs) (s : St) : St :=
  let t := { s with streamInValid := false,
                    doneCdc := s.doneCdc / 2 + (if i.done then 2 else 0),
                    mem := if s.doneCdc = 2 then
                             (fun a => if a = s.adr then dapDatW i s else s.mem a)
                           else s.mem,
                    datR := if s.doneCdc = 2 then dapDatW i s else s.mem s.adr }
  match s.fsm with
  | FsmState.idle => stepIdle i s t
  | FsmState.respond => stepRespond i s t
  | FsmState.rxParams => stepRxParams i s t
  | FsmState.swjPinsProc => respSwjPinsProcess i s t
  | FsmState.swoDataProc => respSwoDataProcess i s t
  | FsmState.swjSeqProc => respSwjSequenceProcess i s t
  | FsmState.jtagSeqProc => respJtagSequenceProcess i s t
  | FsmState.transferProc => respTransferProcess i s t
  | FsmState.blockProc => respTransferBlockProcess i s t
  | FsmState.swdSeqGetCount => respInvalid t
  | FsmState.blockStray => respInvalid t
  | FsmState.execCmdsGetNum => respInvalid t
  | FsmState.queueCmdsGetNum => respInvalid t
  | FsmState.waitDone => respWaitDone i s t
  | FsmState.waitConnectDone => respWaitConnectDone s t
  | FsmState.errorState => respInvalid t
  | FsmState.protocolError => respInvalid t

/-!
### Runs

A run folds `step` over a list of per-cycle inputs, recording the byte pushed
onto `streamIn` whenever `streamIn.valid` is registered high (the source only
asserts `valid` together with a fresh payload byte, and a global default
clears it every other cycle), and counting the rising edges of `dbgif.go`
(each rising edge is one command handed to the debug engine).
-/

/-- Accumulator of a run: current state, emitted `(payload, last)` bytes and
the number of rising edges of `go` seen so far. -/
structure RunAcc where
  st : St
  emitted : List (Nat × Bool)
  goRises : Nat

/-- One cycle of a run. -/
def stepAcc (a : RunAcc) (i : Inputs) : RunAcc :=
  let t := step i a.st
  ⟨t,
   a.emitted ++ (if t.streamInValid then [(t.streamInPayload, t.streamInLast)] else []),
   a.goRises + (if a.st.go = false ∧ t.go = true then 1 else 0)⟩

/-- Run the core from state `s` over the input trace `l`. -/
def runFrom (s : St) (l : List Inputs) : RunAcc :=
  l.foldl stepAcc ⟨s, [], 0⟩

-- Input-trace helpers.  `quiet`: no host byte offered, response consumer
-- ready, engine idle with `done` high and `ack` OK.

/-- Build an input record positionally (valid, first, last, payload, siReady,
done, ack, perr, dread, again, ignoreData, postedMode). -/
def mkIn (v f l : Bool) (p : Nat) (r d : Bool) (a : Nat) (pe : Bool) (dr : Nat)
    (ag ig po : Bool) : Inputs :=
  ⟨v, f, l, p, r, d, a, pe, dr, ag, ig, po⟩

/-- No host activity, consumer ready, engine idle (`done` high, ack OK). -/
def quiet : Inputs := mkIn false false false 0 true true 1 false 0 false false false

/-- Host offers a payload byte. -/
def rxB (p : Nat) : Inputs := mkIn true false false p true true 1 false 0 false false false

/-- Host offers the first byte of a packet. -/
def rxF (p : Nat) : Inputs := mkIn true true false p true true 1 false 0 false false false

/-- Host offers the last byte of a packet. -/
def rxL (p : Nat) : Inputs := mkIn true false true p true true 1 false 0 false false false

/-- Host offers a one-byte packet (first and last). -/
def rxFL (p : Nat) : Inputs := mkIn true true true p true true 1 false 0 false false false

/-- Engine with `done` low (command accepted / still executing). -/
def engBusy : Inputs := mkIn false false false 0 true false 1 false 0 false false false

/-- Engine completed: `done` high with a given ack and read data. -/
def engDone (a : Nat) (dr : Nat) : Inputs :=
  mkIn false false false 0 true true a false dr false false false

/-- A full accept-and-complete handshake of the engine as the waiting states
observe it: `done` drops for two cycles, then returns high carrying the
result for three cycles (two of which let the synchroniser catch up). -/
def handshake (a : Nat) (dr : Nat) : List Inputs :=
  [engBusy, engBusy, engDone a dr, engDone a dr, engDone a dr]

/-- Two cycles that bring the `done` synchroniser up after power-on reset
(the engine is idle with `done` high). -/
def leadIn : List Inputs := [quiet, quiet]

/-!
### Concrete input traces

All traces start from `reset` and include the two `leadIn` cycles that let
the `done` synchroniser settle with the engine idle.  Bytes of a frame are
offered back to back (the accumulator consumes a byte whenever
`streamOut.valid` is up, as in the source); transfer payload bytes are
interleaved with pauses because the handlers toggle `busy` to take a byte
every other cycle.
-/

/-- An accept-and-complete handshake with the engine for one `go` pulse. -/
def hshake : List Inputs := handshake 1 0

def qn (n : Nat) : List Inputs := List.replicate n quiet

-- One trace per opcode of the IDLE dispatch table, used for the echo claim.

def trInfo : List Inputs := leadIn ++ [rxF 0x00, rxL 0x01] ++ qn 5
def trHostStatus : List Inputs := leadIn ++ [rxF 0x01, rxB 0x00, rxL 0x00] ++ qn 5
def trConnect : List Inputs := leadIn ++ [rxF 0x02, rxL 0x01, quiet] ++ hshake ++ qn 5
def trDisconnect : List Inputs := leadIn ++ [rxFL 0x03] ++ qn 5
def trTransferConfigure : List Inputs :=
  leadIn ++ [rxF 0x04, rxB 0, rxB 2, rxB 0, rxB 5, rxL 0, quiet] ++ hshake ++ qn 5
def trTransferZero : List Inputs := leadIn ++ [rxF 0x05, rxB 0x00, rxL 0x00] ++ qn 6
def trTransferBlockZero : List Inputs :=
  leadIn ++ [rxF 0x06, rxB 0, rxB 0, rxB 0, rxL 0x02] ++ qn 7
def trTransferAbort : List Inputs := leadIn ++ [rxFL 0x07] ++ qn 5
def trWriteAbort : List Inputs :=
  leadIn ++ [rxF 0x08, rxB 0, rxB 1, rxB 2, rxB 3, rxL 4, quiet] ++ hshake ++ qn 5
def trDelay : List Inputs := leadIn ++ [rxF 0x09, rxB 0x10, rxL 0x00, quiet] ++ hshake ++ qn 5
def trResetTarget : List Inputs := leadIn ++ [rxFL 0x0A, quiet] ++ hshake ++ qn 6
def trSwjPins : List Inputs :=
  leadIn ++ [rxF 0x10, rxB 0, rxB 0, rxB 0, rxB 0, rxB 0, rxL 0] ++ qn 6
def trSwjClock : List Inputs :=
  leadIn ++ [rxF 0x11, rxB 0, rxB 0, rxB 0, rxL 1, quiet] ++ hshake ++ qn 5
def trSwjSequence : List Inputs :=
  leadIn ++ [rxF 0x12, rxB 0x01, quiet, quiet, rxL 0x01, quiet] ++ hshake ++ hshake ++
  [quiet] ++ qn 6
def trSwdConfigure : List Inputs := leadIn ++ [rxF 0x13, rxL 0x00, quiet] ++ hshake ++ qn 5
def trJtagSequence : List Inputs := leadIn ++ [rxF 0x14, rxL 0x00] ++ qn 6
def trJtagConfigure : List Inputs := leadIn ++ [rxF 0x15, rxB 0x01, rxL 0x04] ++ qn 5
def trJtagIdcode : List Inputs := leadIn ++ [rxF 0x16, rxL 0x00] ++ qn 9
def trSwoTransport : List Inputs := leadIn ++ [rxF 0x17, rxL 0x00] ++ qn 5
def trSwoMode : List Inputs := leadIn ++ [rxF 0x18, rxL 0x01] ++ qn 5
def trSwoBaudrate : List Inputs := leadIn ++ [rxF 0x19, rxB 1, rxB 2, rxB 3, rxL 4] ++ qn 8
def trSwoControl : List Inputs := leadIn ++ [rxF 0x1A, rxL 0x01] ++ qn 5
def trSwoStatus : List Inputs := leadIn ++ [rxFL 0x1B] ++ qn 9
def trSwoData : List Inputs := leadIn ++ [rxF 0x1C, rxB 0x00, rxL 0x00] ++ qn 8
def trSwdSequence : List Inputs := leadIn ++ [rxF 0x1D, rxL 0x00] ++ qn 5
def trSwoExtendedStatus : List Inputs := leadIn ++ [rxF 0x1E, rxL 0x00] ++ qn 17
def trQueueCommands : List Inputs := leadIn ++ [rxF 0x7E, rxL 0x00] ++ qn 5
def trExecuteCommands : List Inputs := leadIn ++ [rxF 0x7F, rxL 0x00] ++ qn 5

/-- `DAP_TransferConfigure` packet setting idle cycles 0, waitRetry 2 and
matchRetry 5, followed by its engine handshake and response drain. -/
def trCfg : List Inputs :=
  [rxF 0x04, rxB 0x00, rxB 0x02, rxB 0x00, rxB 0x05, rxL 0x00, quiet] ++ hshake ++ qn 4

/-- `DAP_Transfer` packet with one value-match read element (request byte
0x12: read with value match), match value 0xFFFFFFFF; the engine completes
the single transaction with ack OK and read data 0x12345678, which does not
match. -/
def trMatchTail : List Inputs :=
  [rxF 0x05, rxB 0x00, rxB 0x01, quiet, quiet, rxB 0x12, quiet,
   rxB 0xFF, quiet, rxB 0xFF, quiet, rxB 0xFF, quiet, rxL 0xFF, quiet,
   engBusy, engBusy,
   engDone 1 0x12345678, engDone 1 0x12345678, engDone 1 0x12345678] ++ qn 11

/-- Configure matchRetry 5, then run the mismatching value-match transfer. -/
def trMatch : List Inputs := leadIn ++ trCfg ++ trMatchTail

/-- `DAP_Transfer` packet with one plain read element (request byte 0x02);
the engine answers every attempt with ack WAIT (0b010).  With waitRetry 2
the element is attempted three times. -/
def trWaitTail : List Inputs :=
  [rxF 0x05, rxB 0x00, rxB 0x01, quiet, quiet, rxL 0x02, quiet] ++
  handshake 2 0 ++ [quiet] ++ handshake 2 0 ++ [quiet] ++ handshake 2 0 ++ qn 12

/-- Configure waitRetry 2, then run the always-WAIT transfer. -/
def trWait : List Inputs := leadIn ++ trCfg ++ trWaitTail

/-- An unknown opcode (0x20) as a one-byte packet, then a truncated
`DAP_Transfer` frame (`last` on the second of three declared bytes), then a
`DAP_Transfer` opcode truncated at its very first byte (`first` and `last`
together on a three-byte frame). -/
def trBadPackets : List Inputs :=
  leadIn ++ [rxFL 0x20] ++ qn 4 ++ [rxF 0x05, rxL 0x00] ++ qn 5 ++ [rxFL 0x05] ++ qn 5

/-- Engine permanently busy: `done` held low, consumer ready. -/
def engLow : Inputs := mkIn false false false 0 true false 1 false 0xAB false false false

def rxBusyF (p : Nat) : Inputs := mkIn true true false p true false 1 false 0xAB false false false
def rxBusyB (p : Nat) : Inputs := mkIn true false false p true false 1 false 0xAB false false false
def rxBusyL (p : Nat) : Inputs := mkIn true false true p true false 1 false 0xAB false false false

/-- A full `DAP_SWJ_Pins` packet while the engine never reports `done`. -/
def trPinsEngineBusy : List Inputs :=
  [rxBusyF 0x10, rxBusyB 0x00, rxBusyB 0x00, rxBusyB 0x00, rxBusyB 0x00, rxBusyB 0x00,
   rxBusyL 0x00] ++ List.replicate 6 engLow

/-- A one-byte `DAP_Disconnect` packet and its response drain. -/
def trDisconnectOnce : List Inputs := leadIn ++ [rxFL 0x03] ++ qn 5

/-- A state with both session flags raised, to exercise `Disconnect`. -/
def stFlagsUp : St := { reset with connected := true, running := true }

/-- `DAP_Info` with sub-ID 0xFF and its response drain. -/
def trInfoPacketSize : List Inputs := leadIn ++ [rxF 0x00, rxL 0xFF] ++ qn 9

/-- The opcodes recognised by the IDLE dispatch table (everything that is not
routed to `RESP_Invalid` by the default case). -/
def opcodeKnown (p : Nat) : Prop :=
  p = DAP_Disconnect ∨ p = DAP_ResetTarget ∨ p = DAP_SWO_Status ∨ p = DAP_TransferAbort ∨
  p = DAP_Info ∨ p = DAP_Connect ∨ p = DAP_SWD_Configure ∨ p = DAP_SWO_Transport ∨
  p = DAP_SWJ_Sequence ∨ p = DAP_SWO_Mode ∨ p = DAP_SWO_Control ∨
  p = DAP_SWO_ExtendedStatus ∨ p = DAP_JTAG_IDCODE ∨ p = DAP_JTAG_Sequence ∨
  p = DAP_HostStatus ∨ p = DAP_SWO_Data ∨ p = DAP_Delay ∨ p = DAP_JTAG_Configure ∨
  p = DAP_Transfer ∨ p = DAP_SWO_Baudrate ∨ p = DAP_SWJ_Clock ∨ p = DAP_TransferBlock ∨
  p = DAP_WriteABORT ∨ p = DAP_TransferConfigure ∨ p = DAP_SWJ_Pins ∨
  p = DAP_SWD_Sequence ∨ p = DAP_ExecuteCommands ∨ p = DAP_QueueCommands

instance (p : Nat) : Decidable (opcodeKnown p) := by
  unfold opcodeKnown
  infer_instance

/-- The invariant of the response streamer: the bytes-sent cursor never
exceeds the declared response length, and outside of `IDLE` and `RESPOND`
the cursor is parked at zero. -/
def streamerInv (s : St) : Prop :=
  s.txedLen ≤ s.txLen ∧
  (s.fsm ≠ FsmState.idle → s.fsm ≠ FsmState.respond → s.txedLen = 0)

-- Concrete states used by the witnesses of the universally quantified
-- theorems below.

/-- Transfer handler at the interpret-result step with an exhausted wait
budget (`waitRetry` still 0). -/
def stWaitAbort : St := { reset with fsm := FsmState.transferProc, txb := 7, doneCdc := 3 }

/-- Transfer handler at the interpret-result step of a value-match read
(request 0x12) expecting 0xFFFFFFFF, with five match retries configured and
none consumed. -/
def stMatchMis : St :=
  { reset with fsm := FsmState.transferProc, txb := 7, doneCdc := 3, tfrReq := 0x12,
               tfrData := 0xFFFFFFFF, matchRetry := 5 }

/-- Dispatcher state holding a complete one-byte `DAP_Disconnect` frame,
with both session flags raised. -/
def stDisc : St :=
  { reset with fsm := FsmState.rxParams, rxBlock := 0x03, rxedLen := 1, rxLen := 1,
               connected := true, running := true }

/-- Dispatcher state holding a complete `DAP_Info` frame with sub-ID 0xFF. -/
def stInfoFF : St :=
  { reset with fsm := FsmState.rxParams, rxBlock := 0xFF00, rxedLen := 2, rxLen := 2 }

/-- Dispatcher state holding a complete `DAP_JTAG_Sequence` frame with
sequence count 0. -/
def stJtagZero : St :=
  { reset with fsm := FsmState.rxParams, rxBlock := 0x0014, rxedLen := 2, rxLen := 2 }

/-- The `SWJ_Pins` processing state with the engine not reporting `done`. -/
def stPinsProc : St := { reset with fsm := FsmState.swjPinsProc }

/-- A `RESPOND` state about to send the single byte of a one-byte response. -/
def stResp : St := { reset with fsm := FsmState.respond, txLen := 1, txBlock := 0xFF }

/-- A truncated frame in mid-reception: two of six `DAP_WriteABORT` bytes
received. -/
def stShortFrame : St :=
  { reset with fsm := FsmState.rxParams, rxBlock := 0x08, rxedLen := 2, rxLen := 6 }

/-!
### Bit-slice arithmetic lemmas

Facts about `getBits` and `setBits` needed to reason symbolically about the
packed `txBlock` and `rxBlock` registers.
-/

theorem getBits_eq_mod_div (v lo n : Nat) :
    getBits v lo n = v % (2 ^ lo * 2 ^ n) / 2 ^ lo := by
  rw [getBits, Nat.shiftRight_eq_div_pow, Nat.mod_mul_right_div_self]

theorem setBits_eq (v lo n x : Nat) :
    setBits v lo n x = v % 2 ^ lo + 2 ^ lo * (x % 2 ^ n + 2 ^ n * (v >>> (lo + n))) := by
  rw [setBits]; ring_nf

theorem lowpair_lt (a b lo n : Nat) (ha : a < 2 ^ lo) (hb : b < 2 ^ n) :
    a + 2 ^ lo * b < 2 ^ lo * 2 ^ n :=
  calc a + 2 ^ lo * b < 2 ^ lo + 2 ^ lo * b := Nat.add_lt_add_right ha _
    _ = 2 ^ lo * (b + 1) := by ring
    _ ≤ 2 ^ lo * 2 ^ n := Nat.mul_le_mul_left _ hb

theorem two_pow_pos (k : Nat) : 0 < 2 ^ k := Nat.pos_pow_of_pos _ (by norm_num)

/-- Reading back exactly the bits that `setBits` wrote yields the written
value (truncated to the field width). -/
theorem getBits_setBits_self (v lo n x : Nat) :
    getBits (setBits v lo n x) lo n = x % 2 ^ n := by
  rw [getBits_eq_mod_div, setBits_eq]
  have h1 : v % 2 ^ lo + 2 ^ lo * (x % 2 ^ n + 2 ^ n * (v >>> (lo + n)))
      = (v % 2 ^ lo + 2 ^ lo * (x % 2 ^ n)) + (v >>> (lo + n)) * (2 ^ lo * 2 ^ n) := by ring
  have h2 := lowpair_lt (v % 2 ^ lo) (x % 2 ^ n) lo n
    (Nat.mod_lt v (two_pow_pos lo)) (Nat.mod_lt x (two_pow_pos n))
  rw [h1, Nat.add_mul_mod_self_right, Nat.mod_eq_of_lt h2,
    Nat.add_mul_div_left _ _ (two_pow_pos lo),
    Nat.div_eq_of_lt (Nat.mod_lt v (two_pow_pos lo)), Nat.zero_add]

/-- `setBits` leaves every bit field strictly below the written range
unchanged. -/
theorem getBits_setBits_below (v lo₁ n₁ x lo₂ n₂ : Nat) (h : lo₂ + n₂ ≤ lo₁) :
    getBits (setBits v lo₁ n₁ x) lo₂ n₂ = getBits v lo₂ n₂ := by
  rw [getBits_eq_mod_div, getBits_eq_mod_div, ← pow_add]
  have hmod : setBits v lo₁ n₁ x % 2 ^ (lo₂ + n₂) = v % 2 ^ (lo₂ + n₂) := by
    obtain ⟨c, hc⟩ : (2 : Nat) ^ (lo₂ + n₂) ∣ 2 ^ lo₁ := pow_dvd_pow 2 h
    rw [setBits_eq, hc, Nat.mul_assoc, Nat.add_mul_mod_self_left,
      Nat.mod_mod_of_dvd _ (dvd_mul_right _ c)]
  rw [hmod]

theorem getBits_shiftRight (v k lo n : Nat) :
    getBits (v >>> k) lo n = getBits v (k + lo) n := by
  rw [getBits, getBits, ← Nat.shiftRight_add]

theorem setBits_shiftRight_high (v lo n x : Nat) :
    setBits v lo n x >>> (lo + n) = v >>> (lo + n) := by
  rw [setBits_eq, Nat.shiftRight_eq_div_pow]
  have h1 : v % 2 ^ lo + 2 ^ lo * (x % 2 ^ n + 2 ^ n * (v >>> (lo + n)))
      = (v % 2 ^ lo + 2 ^ lo * (x % 2 ^ n)) + 2 ^ (lo + n) * (v >>> (lo + n)) := by
    rw [pow_add]; ring
  have h2 : v % 2 ^ lo + 2 ^ lo * (x % 2 ^ n) < 2 ^ (lo + n) := by
    rw [pow_add]
    exact lowpair_lt _ _ lo n (Nat.mod_lt v (two_pow_pos lo)) (Nat.mod_lt x (two_pow_pos n))
  rw [h1, Nat.add_mul_div_left _ _ (two_pow_pos (lo + n)),
    Nat.div_eq_of_lt h2, Nat.zero_add, Nat.shiftRight_eq_div_pow]

/-- `setBits` leaves every bit field strictly above the written range
unchanged. -/
theorem getBits_setBits_above (v lo₁ n₁ x lo₂ n₂ : Nat) (h : lo₁ + n₁ ≤ lo₂) :
    getBits (setBits v lo₁ n₁ x) lo₂ n₂ = getBits v lo₂ n₂ := by
  obtain ⟨d, rfl⟩ : ∃ d, lo₂ = lo₁ + n₁ + d := ⟨lo₂ - (lo₁ + n₁), by omega⟩
  rw [← getBits_shiftRight, ← getBits_shiftRight, setBits_shiftRight_high]

theorem getBit_eq_getBits (v k : Nat) : getBit v k = (getBits v k 1 == 1) := by
  rw [getBit, getBits, pow_one]

theorem getBit_setBit_self (v k : Nat) (b : Bool) : getBit (setBit v k b) k = b := by
  rw [getBit_eq_getBits, setBit, getBits_setBits_self]
  cases b <;> rfl

/-- Reading a low sub-field of a field written at offset zero. -/
theorem getBits_setBits_inner_low (v n x m : Nat) (hm : m ≤ n) :
    getBits (setBits v 0 n x) 0 m = x % 2 ^ n % 2 ^ m := by
  obtain ⟨c, hc⟩ : (2 : Nat) ^ m ∣ 2 ^ n := pow_dvd_pow 2 hm
  rw [getBits, Nat.shiftRight_zero, setBits_eq, pow_zero, Nat.mod_one, Nat.zero_add,
    Nat.one_mul]
  generalize x % 2 ^ n = y
  rw [hc, Nat.mul_assoc, Nat.add_mul_mod_self_left]

/-!
### Step lemmas for the response streamer
-/

theorem step_idle_txedLen (i : Inputs) (s : St) (h : s.fsm = FsmState.idle) :
    (step i s).txedLen = 0 := by
  simp [step, stepIdle, respInvalid, h, apply_ite St.txedLen, ite_self]

theorem step_txedLen_other (i : Inputs) (s : St) (h1 : s.fsm ≠ FsmState.idle)
    (h2 : s.fsm ≠ FsmState.respond) : (step i s).txedLen = s.txedLen := by
  cases hf : s.fsm <;>
  first
    | exact absurd hf h1
    | exact absurd hf h2
    | simp [step, stepRxParams, respInfo, respHostStatus, respConnectSetup, respDisconnect,
        respWriteAbort, respDelay, respResetTarget, respSwjPinsSetup, respSwjPinsProcess,
        respSwjClock, respSwjSequenceSetup, respSwjSequenceProcess, respSwdConfigure,
        respSwoTransport, respSwoMode, respSwoBaudrate, respSwoControl, respSwoStatus,
        respSwoExtendedStatus, respSwoDataSetup, respSwoDataProcess, respJtagSequenceSetup,
        respJtagSequenceProcess, respJtagConfigure, respJtagIdcode, respTransferConfigure,
        respTransferSetup, respTransferProcess, respTransferBlockSetup,
        respTransferBlockProcess, respWaitDone, respWaitConnectDone, respInvalid, hf,
        apply_ite St.txedLen, ite_self]

theorem step_respond_facts (i : Inputs) (s : St) (h : s.fsm = FsmState.respond) :
    (step i s).txLen = s.txLen ∧
    ((step i s).fsm = FsmState.respond ∨ (step i s).fsm = FsmState.idle) ∧
    ((step i s).txedLen = s.txedLen ∨
      s.txedLen < s.txLen ∧ (step i s).txedLen = (s.txedLen + 1) % 2 ^ 16) := by
  by_cases hlt : s.txedLen < s.txLen <;> by_cases hr : i.siReady = true <;>
    simp [step, stepRespond, h, hlt, hr]

theorem step_respond_lastiff (i : Inputs) (s : St) (h : s.fsm = FsmState.respond)
    (hv : (step i s).streamInValid = true) :
    ((step i s).streamInLast = true ↔ s.txedLen + 1 = s.txLen) := by
  by_cases hlt : s.txedLen < s.txLen <;> by_cases hr : i.siReady = true <;>
    simp [step, stepRespond, h, hlt, hr] at hv ⊢

theorem streamerInv_step (i : Inputs) (s : St) (hinv : streamerInv s) :
    streamerInv (step i s) := by
  by_cases hI : s.fsm = FsmState.idle
  · refine ⟨?_, ?_⟩
    · rw [step_idle_txedLen i s hI]; exact Nat.zero_le _
    · intro _ _; exact step_idle_txedLen i s hI
  by_cases hR : s.fsm = FsmState.respond
  · obtain ⟨hlen, hfsm, hted⟩ := step_respond_facts i s hR
    refine ⟨?_, ?_⟩
    · rw [hlen]
      rcases hted with h | ⟨hlt, h⟩
      · rw [h]; exact hinv.1
      · rw [h]; exact le_trans (Nat.mod_le _ _) hlt
    · intro hn1 hn2
      rcases hfsm with h | h
      · exact absurd h hn2
      · exact absurd h hn1
  · have h0 : s.txedLen = 0 := hinv.2 hI hR
    have he := step_txedLen_other i s hI hR
    refine ⟨?_, ?_⟩
    · rw [he, h0]; exact Nat.zero_le _
    · intro _ _; rw [he, h0]

/-!
### Claims
-/

/-- C1: In the value-match branch of `RESP_Transfer_Process` the source's
condition is inverted with respect to its own comment ("Not a match and
we've run out of attempts, so set bit 4") and `matchretries` is never
incremented: a mismatching read with the whole match-retry budget still
available sets the value-mismatch status bit (bit 21 of `txBlock`, bit 5 of
the status byte) and aborts at once without any retry, while a matching read
re-issues the same element instead of proceeding.  The concrete run
configures `matchRetry = 5` and performs one value-match read whose data
never matches: the handler pulses `go` once for the whole element (plus once
for `TransferConfigure`), reports the mismatch bit (status byte 0x21) and
terminates — the claimed "retry exactly matchRetry times before the
mismatch bit" behaviour does not occur. -/
theorem transfer_value_match_inverted :
    (∀ (i : Inputs) (s : St), s.fsm = FsmState.transferProc → s.txb = 7 →
      s.doneCdc = 3 → i.ack % 8 = 1 → getBit s.tfrReq 4 = true →
      (i.dread % 2 ^ 32) &&& s.mask ≠ s.tfrData → s.matchretries < s.matchRetry →
      (step i s).txb = 8 ∧ getBit (step i s).txBlock 21 = true) ∧
    (∀ (i : Inputs) (s : St), s.fsm = FsmState.transferProc → s.txb = 7 →
      s.doneCdc = 3 → i.ack % 8 = 1 → getBit s.tfrReq 4 = true →
      (i.dread % 2 ^ 32) &&& s.mask = s.tfrData →
      (step i s).txb = 5 ∧ (step i s).transferCount = s.transferCount) ∧
    (runFrom reset trMatch).emitted =
      [(4, false), (0, true), (5, false), (1, false), (0x21, false),
       (0x78, false), (0x56, false), (0x34, false), (0x12, true)] ∧
    (runFrom reset trMatch).goRises = 2 ∧
    (runFrom reset trMatch).st.fsm = FsmState.idle := by
  refine ⟨?_, ?_, by decide, by decide, by decide⟩
  · intro i s h htxb hdone hack hreq hmis hbud
    rw [show (2 : Nat) ^ 32 = 4294967296 from rfl] at hmis
    constructor
    · simp [step, respTransferProcess, h, htxb, hdone, hack, hreq, hmis, hbud]
    · simp [step, respTransferProcess, h, htxb, hdone, hack, hreq, hmis, hbud,
        getBit_setBit_self]
  · intro i s h htxb hdone hack hreq hmat
    rw [show (2 : Nat) ^ 32 = 4294967296 from rfl] at hmat
    simp [step, respTransferProcess, h, htxb, hdone, hack, hreq, hmat]

/-- Witness for C1 at a concrete mismatching value-match read. -/
theorem transfer_value_match_inverted_witness :
    (step (engDone 1 0x12345678) stMatchMis).txb = 8 ∧
    getBit (step (engDone 1 0x12345678) stMatchMis).txBlock 21 = true :=
  transfer_value_match_inverted.1 (engDone 1 0x12345678) stMatchMis rfl rfl rfl
    (by decide) (by decide) (by decide) (by decide)

/-- C2 counterexample: with `waitRetry = 2` and an engine that answers WAIT
on every attempt of the single transfer element, the count byte of the
response (the fourth byte emitted, after the two-byte `TransferConfigure`
response) is 1, not the 0 the claim requires for a first element that
exhausts its retries. -/
theorem transfer_wait_count_byte_counterexample :
    (runFrom reset trWait).emitted[3]? = some (1, false) ∧
    ¬ (runFrom reset trWait).emitted[3]? = some (0, false) := by
  exact ⟨by decide, by decide⟩

/-- C2 (amended): on an ack-WAIT completion the handler increments the wait
counter, re-issues the same element unchanged while the counter was below
`waitRetry`, and otherwise aborts to the response phase; the status byte
carries the WAIT ack and the count byte is untouched by the retry decision.
At `txb = 5` the re-issue drives the engine with the unchanged request and
data.  In the concrete always-WAIT run with `waitRetry = 2` the element is
attempted exactly three times (four `go` pulses in total, one of them for
`TransferConfigure`), the count byte reports 1 — the started element — and
the status byte carries the WAIT ack 2; the command still terminates. -/
theorem transfer_wait_retry_and_report :
    (∀ (i : Inputs) (s : St), s.fsm = FsmState.transferProc → s.txb = 7 →
      s.doneCdc = 3 → i.ack % 8 = 2 →
      (step i s).retries = (s.retries + 1) % 2 ^ 16 ∧
      (step i s).txb = (if s.retries < s.waitRetry then 5 else 8) ∧
      (step i s).tfrReq = s.tfrReq ∧ (step i s).tfrData = s.tfrData ∧
      (step i s).transferCount = s.transferCount ∧
      getBits (step i s).txBlock 16 8 = 2 + (if i.perr = true then 8 else 0) ∧
      getBits (step i s).txBlock 8 8 = getBits s.txBlock 8 8) ∧
    (∀ (i : Inputs) (s : St), s.fsm = FsmState.transferProc → s.txb = 5 →
      (step i s).go = true ∧ (step i s).dwrite = s.tfrData ∧
      (step i s).rnw = getBit s.tfrReq 1 ∧ (step i s).apndp = getBit s.tfrReq 0 ∧
      (step i s).command = CMD_TRANSACT ∧ (step i s).txb = 6) ∧
    (runFrom reset trWait).emitted =
      [(4, false), (0, true), (5, false), (1, false), (2, false),
       (0, false), (0, false), (0, false), (0, true)] ∧
    (runFrom reset trWait).goRises = 4 ∧
    (runFrom reset trWait).st.fsm = FsmState.idle := by
  refine ⟨?_, ?_, by decide, by decide, by decide⟩
  · intro i s h htxb hdone hack
    refine ⟨?_, ?_, ?_, ?_, ?_, ?_, ?_⟩ <;>
      simp [step, respTransferProcess, h, htxb, hdone, hack, getBits_setBits_self,
        getBits_setBits_below] <;>
      cases hp : i.perr <;> simp [hp]
  · intro i s h htxb
    simp [step, respTransferProcess, h, htxb]

/-- Witness for C2 at a concrete WAIT completion with the budget exhausted. -/
theorem transfer_wait_retry_and_report_witness :
    (step (engDone 2 0) stWaitAbort).retries = (stWaitAbort.retries + 1) % 2 ^ 16 ∧
    (step (engDone 2 0) stWaitAbort).txb =
      (if stWaitAbort.retries < stWaitAbort.waitRetry then 5 else 8) :=
  ⟨(transfer_wait_retry_and_report.1 (engDone 2 0) stWaitAbort rfl rfl rfl (by decide)).1,
   (transfer_wait_retry_and_report.1 (engDone 2 0) stWaitAbort rfl rfl rfl (by decide)).2.1⟩

/-- C3: an unknown opcode or a truncated frame always produces the one-byte
Invalid response 0xFF, never touches the engine's `go`, and the core is back
in `IDLE` accepting a fresh packet immediately after the response: the IDLE
default case, the early-`last` branch of `RxParams` and the `ProtocolError`
state all stage `txBlock` byte 0 = 0xFF with `txLen = 1` and preserve `go`;
the reception and response states preserve `go` as well; and the concrete
run feeds an unknown opcode, a mid-frame truncation and a first-byte
truncation back to back, obtaining exactly three 0xFF responses, zero `go`
pulses and a final `IDLE` state. -/
theorem framing_errors_yield_invalid :
    (∀ (i : Inputs) (s : St), s.fsm = FsmState.idle → i.soValid = true →
      i.soFirst = true → ¬ opcodeKnown (i.soPayload % 2 ^ 8) →
      (step i s).fsm = FsmState.respond ∧ (step i s).txLen = 1 ∧
      getBits (step i s).txBlock 0 8 = DAP_Invalid ∧ (step i s).go = s.go ∧
      (step i s).busy = true) ∧
    (∀ (i : Inputs) (s : St), s.fsm = FsmState.rxParams → s.rxedLen ≠ s.rxLen →
      i.soValid = true → i.soLast = true → s.rxedLen + 1 ≠ s.rxLen →
      (step i s).fsm = FsmState.respond ∧ (step i s).txLen = 1 ∧
      getBits (step i s).txBlock 0 8 = DAP_Invalid ∧ (step i s).go = s.go) ∧
    (∀ (i : Inputs) (s : St), s.fsm = FsmState.protocolError →
      (step i s).fsm = FsmState.respond ∧ (step i s).txLen = 1 ∧
      getBits (step i s).txBlock 0 8 = DAP_Invalid ∧ (step i s).go = s.go) ∧
    (∀ (i : Inputs) (s : St), s.fsm = FsmState.idle → (step i s).go = s.go) ∧
    (∀ (i : Inputs) (s : St), s.fsm = FsmState.respond → (step i s).go = s.go) ∧
    (∀ (i : Inputs) (s : St), s.fsm = FsmState.rxParams → s.rxedLen ≠ s.rxLen →
      (step i s).go = s.go) ∧
    (runFrom reset trBadPackets).emitted =
      [(0xFF, true), (0xFF, true), (0xFF, true)] ∧
    (runFrom reset trBadPackets).goRises = 0 ∧
    (runFrom reset trBadPackets).st.fsm = FsmState.idle := by
  refine ⟨?_, ?_, ?_, ?_, ?_, ?_, by decide, by decide, by decide⟩
  · intro i s h hv hf hk
    simp only [opcodeKnown, not_or, show (2 : Nat) ^ 8 = 256 from rfl] at hk
    simp [step, stepIdle, respInvalid, h, hv, hf, hk, getBits_setBits_self, DAP_Invalid]
  · intro i s h hlen hv hl hsh
    simp [step, stepRxParams, respInvalid, h, hlen, hv, hl, hsh, getBits_setBits_self,
      DAP_Invalid, apply_ite St.go, apply_ite St.fsm, apply_ite St.txLen,
      apply_ite St.txBlock, ite_self]
  · intro i s h
    simp [step, respInvalid, h, getBits_setBits_self, DAP_Invalid]
  · intro i s h
    simp [step, stepIdle, respInvalid, h, apply_ite St.go, ite_self]
  · intro i s h
    simp [step, stepRespond, h, apply_ite St.go, ite_self]
  · intro i s h hlen
    simp [step, stepRxParams, respInvalid, h, hlen, apply_ite St.go, ite_self]

/-- Witness for C3 at the unknown opcode 0x20 and at a mid-frame truncation. -/
theorem framing_errors_yield_invalid_witness :
    ((step (rxFL 0x20) reset).fsm = FsmState.respond ∧ (step (rxFL 0x20) reset).txLen = 1 ∧
     getBits (step (rxFL 0x20) reset).txBlock 0 8 = DAP_Invalid ∧
     (step (rxFL 0x20) reset).go = reset.go ∧ (step (rxFL 0x20) reset).busy = true) ∧
    ((step (rxFL 0x00) stShortFrame).fsm = FsmState.respond ∧
     (step (rxFL 0x00) stShortFrame).txLen = 1 ∧
     getBits (step (rxFL 0x00) stShortFrame).txBlock 0 8 = DAP_Invalid ∧
     (step (rxFL 0x00) stShortFrame).go = stShortFrame.go) :=
  ⟨framing_errors_yield_invalid.1 (rxFL 0x20) reset rfl rfl rfl (by decide),
   framing_errors_yield_invalid.2.1 (rxFL 0x00) stShortFrame rfl (by decide) rfl rfl
     (by decide)⟩

/-- C4: on every packet start the IDLE state stages the opcode byte as byte 0
of the response and the default response length 2, for every opcode of the
dispatch table; and for each supported opcode a complete frame of the
declared length followed by `last` yields a response whose first byte echoes
the opcode — except the commands routed through the Invalid path
(`TransferAbort` has no dispatcher case, and `SWD_Sequence`,
`QueueCommands`, `ExecuteCommands` are unimplemented), whose responses carry
the fixed invalid code 0xFF. -/
theorem response_first_byte_echoes_opcode :
    (∀ (i : Inputs) (s : St), s.fsm = FsmState.idle → i.soValid = true →
      i.soFirst = true → opcodeKnown (i.soPayload % 2 ^ 8) →
      getBits (step i s).txBlock 0 8 = i.soPayload % 2 ^ 8 ∧ (step i s).txLen = 2) ∧
    [(runFrom reset trInfo).emitted.head?,
     (runFrom reset trHostStatus).emitted.head?,
     (runFrom reset trConnect).emitted.head?,
     (runFrom reset trDisconnect).emitted.head?,
     (runFrom reset trTransferConfigure).emitted.head?,
     (runFrom reset trTransferZero).emitted.head?,
     (runFrom reset trTransferBlockZero).emitted.head?,
     (runFrom reset trWriteAbort).emitted.head?,
     (runFrom reset trDelay).emitted.head?,
     (runFrom reset trResetTarget).emitted.head?,
     (runFrom reset trSwjPins).emitted.head?,
     (runFrom reset trSwjClock).emitted.head?,
     (runFrom reset trSwjSequence).emitted.head?,
     (runFrom reset trSwdConfigure).emitted.head?,
     (runFrom reset trJtagSequence).emitted.head?,
     (runFrom reset trJtagConfigure).emitted.head?,
     (runFrom reset trJtagIdcode).emitted.head?,
     (runFrom reset trSwoTransport).emitted.head?,
     (runFrom reset trSwoMode).emitted.head?,
     (runFrom reset trSwoBaudrate).emitted.head?,
     (runFrom reset trSwoControl).emitted.head?,
     (runFrom reset trSwoStatus).emitted.head?,
     (runFrom reset trSwoData).emitted.head?,
     (runFrom reset trSwoExtendedStatus).emitted.head?,
     (runFrom reset trTransferAbort).emitted.head?,
     (runFrom reset trSwdSequence).emitted.head?,
     (runFrom reset trQueueCommands).emitted.head?,
     (runFrom reset trExecuteCommands).emitted.head?] =
    [some (DAP_Info, false),
     some (DAP_HostStatus, false),
     some (DAP_Connect, false),
     some (DAP_Disconnect, false),
     some (DAP_TransferConfigure, false),
     some (DAP_Transfer, false),
     some (DAP_TransferBlock, false),
     some (DAP_WriteABORT, false),
     some (DAP_Delay, false),
     some (DAP_ResetTarget, false),
     some (DAP_SWJ_Pins, false),
     some (DAP_SWJ_Clock, false),
     some (DAP_SWJ_Sequence, false),
     some (DAP_SWD_Configure, false),
     some (DAP_JTAG_Sequence, false),
     some (DAP_JTAG_Configure, false),
     some (DAP_JTAG_IDCODE, false),
     some (DAP_SWO_Transport, false),
     some (DAP_SWO_Mode, false),
     some (DAP_SWO_Baudrate, false),
     some (DAP_SWO_Control, false),
     some (DAP_SWO_Status, false),
     some (DAP_SWO_Data, false),
     some (DAP_SWO_ExtendedStatus, false),
     some (DAP_Invalid, true),
     some (DAP_Invalid, true),
     some (DAP_Invalid, true),
     some (DAP_Invalid, true)] := by
  refine ⟨?_, by decide⟩
  intro i s h hv hf hk
  simp only [show (2 : Nat) ^ 8 = 256 from rfl] at hk ⊢
  rcases hk with hp | hp | hp | hp | hp | hp | hp | hp | hp | hp | hp | hp | hp | hp |
    hp | hp | hp | hp | hp | hp | hp | hp | hp | hp | hp | hp | hp | hp <;>
    simp [step, stepIdle, h, hv, hf, hp, DAP_Info, DAP_HostStatus, DAP_Connect,
      DAP_Disconnect, DAP_TransferConfigure, DAP_Transfer, DAP_TransferBlock,
      DAP_TransferAbort, DAP_WriteABORT, DAP_Delay, DAP_ResetTarget, DAP_SWJ_Pins,
      DAP_SWJ_Clock, DAP_SWJ_Sequence, DAP_SWD_Configure, DAP_JTAG_Sequence,
      DAP_JTAG_Configure, DAP_JTAG_IDCODE, DAP_SWO_Transport, DAP_SWO_Mode,
      DAP_SWO_Baudrate, DAP_SWO_Control, DAP_SWO_Status, DAP_SWO_Data, DAP_SWD_Sequence,
      DAP_SWO_ExtendedStatus, DAP_ExecuteCommands, DAP_QueueCommands,
      getBits_setBits_inner_low, apply_ite St.txBlock, apply_ite St.txLen, ite_self]

/-- Witness for C4 at a concrete `DAP_Disconnect` packet start. -/
theorem response_first_byte_echoes_opcode_witness :
    getBits (step (rxF 0x03) reset).txBlock 0 8 = (rxF 0x03).soPayload % 2 ^ 8 ∧
    (step (rxF 0x03) reset).txLen = 2 :=
  response_first_byte_echoes_opcode.1 (rxF 0x03) reset rfl rfl rfl (by decide)

/-- C5: `DAP_Info` with sub-ID 0xFF responds with length byte 2 followed by
the 16-bit maximum packet size — 500 when the v2 transport indication is
set and 64 otherwise, decided by the transport flag alone with identical
framing; the two concrete runs differ only in the two packet-size bytes. -/
theorem info_packet_size_transport :
    (∀ (i : Inputs) (s : St), s.fsm = FsmState.rxParams → s.rxedLen = s.rxLen →
      getBits s.rxBlock 0 8 = DAP_Info → getBits s.rxBlock 8 8 = 0xFF →
      (step i s).txLen = 6 ∧ (step i s).fsm = FsmState.respond ∧
      getBits (step i s).txBlock 8 24 =
        2 + (if s.isV2 = true then DAP_V2_MAX_PACKET_SIZE else DAP_V1_MAX_PACKET_SIZE)
          * 2 ^ 8) ∧
    (runFrom reset trInfoPacketSize).emitted =
      [(0, false), (2, false), (64, false), (0, false), (0, false), (0, true)] ∧
    (runFrom { reset with isV2 := true } trInfoPacketSize).emitted =
      [(0, false), (2, false), (244, false), (1, false), (0, false), (0, true)] := by
  refine ⟨?_, by decide, by decide⟩
  intro i s h hlen hop hsub
  simp only [step, stepRxParams, respInfo, h, hlen, hop, hsub, DAP_Info, DAP_Invalid]
  norm_num
  cases hv : s.isV2 <;>
    simp [hv, getBits_setBits_self, DAP_V1_MAX_PACKET_SIZE, DAP_V2_MAX_PACKET_SIZE]

/-- Witness for C5 at a concrete `DAP_Info` 0xFF frame (v1 transport). -/
theorem info_packet_size_transport_witness :
    (step quiet stInfoFF).txLen = 6 ∧ (step quiet stInfoFF).fsm = FsmState.respond ∧
    getBits (step quiet stInfoFF).txBlock 8 24 =
      2 + (if stInfoFF.isV2 = true then DAP_V2_MAX_PACKET_SIZE else DAP_V1_MAX_PACKET_SIZE)
        * 2 ^ 8 :=
  info_packet_size_transport.1 quiet stInfoFF rfl rfl (by decide) (by decide)

/-- C6: `RESP_SWJ_Pins_Process` moves to `RESPOND` unconditionally after a
single cycle, against its own "Spin waiting for debug interface" comment:
the response is emitted whether or not the engine handshake ever ran, and
the setup state never selects a dbgIF command nor asserts `go` at all.  Only
the data capture is guarded by `dbg_done`, so when the engine happens to be
idle the sampled pin byte is echoed, but when `done` is low the stale byte 0
is sent.  The concrete run drives a full `SWJ_Pins` frame with `done` held
low: the core answers `[0x10, 0x00]` immediately, with zero `go` pulses. -/
theorem swj_pins_no_handshake_wait :
    (∀ (i : Inputs) (s : St), s.fsm = FsmState.swjPinsProc →
      (step i s).fsm = FsmState.respond ∧ (step i s).go = s.go) ∧
    (∀ (i : Inputs) (s : St), s.fsm = FsmState.swjPinsProc → s.doneCdc = 3 →
      getBits (step i s).txBlock 8 8 = getBits i.dread 0 8 ∧ (step i s).txLen = 2) ∧
    (runFrom reset trPinsEngineBusy).emitted = [(0x10, false), (0x00, true)] ∧
    (runFrom reset trPinsEngineBusy).goRises = 0 ∧
    (runFrom reset trPinsEngineBusy).st.fsm = FsmState.idle := by
  refine ⟨?_, ?_, by decide, by decide, by decide⟩
  · intro i s h
    by_cases hd : s.doneCdc = 3 <;> simp [step, respSwjPinsProcess, h, hd]
  · intro i s h hd
    have hred : (step i s).txBlock = setBits s.txBlock 8 8 (getBits i.dread 0 8) := by
      simp [step, respSwjPinsProcess, h, hd]
    refine ⟨?_, ?_⟩
    · rw [hred, getBits_setBits_self, getBits, Nat.shiftRight_zero]
      exact Nat.mod_mod_of_dvd _ dvd_rfl
    · simp [step, respSwjPinsProcess, h, hd]

/-- Witness for C6 at the processing state with the engine busy. -/
theorem swj_pins_no_handshake_wait_witness :
    (step engLow stPinsProc).fsm = FsmState.respond ∧
    (step engLow stPinsProc).go = stPinsProc.go :=
  swj_pins_no_handshake_wait.1 engLow stPinsProc rfl

/-- C7: a `DAP_JTAG_Sequence` frame with sequence count 0 dispatches into
the sequence engine with `seqCount = 0` and `tdoCount = 16`, which on its
first cycle computes the response length `(16 + 7) >> 3 = 2` and moves
straight to `RESPOND` without touching `go`; the concrete run emits exactly
the two header bytes with zero `go` pulses. -/
theorem jtag_sequence_empty_immediate :
    (∀ (i : Inputs) (s : St), s.fsm = FsmState.rxParams → s.rxedLen = s.rxLen →
      getBits s.rxBlock 0 8 = DAP_JTAG_Sequence → getBits s.rxBlock 8 8 = 0 →
      (step i s).fsm = FsmState.jtagSeqProc ∧ (step i s).seqCount = 0 ∧
      (step i s).tdoCount = 16 ∧ (step i s).go = s.go) ∧
    (∀ (i : Inputs) (s : St), s.fsm = FsmState.jtagSeqProc → s.seqCount = 0 →
      (step i s).fsm = FsmState.respond ∧ (step i s).txLen = (s.tdoCount + 7) / 8 ∧
      (step i s).busy = false ∧ (step i s).go = s.go) ∧
    (runFrom reset trJtagSequence).emitted = [(0x14, false), (0, true)] ∧
    (runFrom reset trJtagSequence).goRises = 0 ∧
    (runFrom reset trJtagSequence).st.fsm = FsmState.idle := by
  refine ⟨?_, ?_, by decide, by decide, by decide⟩
  · intro i s h hlen hop hsub
    simp [step, stepRxParams, respJtagSequenceSetup, h, hlen, hop, hsub, DAP_Info,
      DAP_HostStatus, DAP_Connect, DAP_Disconnect, DAP_WriteABORT, DAP_Delay,
      DAP_ResetTarget, DAP_SWJ_Pins, DAP_SWJ_Clock, DAP_SWJ_Sequence, DAP_SWD_Configure,
      DAP_SWO_Transport, DAP_SWO_Mode, DAP_SWO_Baudrate, DAP_SWO_Control, DAP_SWO_Status,
      DAP_SWO_ExtendedStatus, DAP_SWO_Data, DAP_JTAG_Sequence]
  · intro i s h hc
    simp [step, respJtagSequenceProcess, h, hc]

/-- Witness for C7 at a concrete zero-count `DAP_JTAG_Sequence` frame. -/
theorem jtag_sequence_empty_immediate_witness :
    (step quiet stJtagZero).fsm = FsmState.jtagSeqProc ∧
    (step quiet stJtagZero).seqCount = 0 ∧ (step quiet stJtagZero).tdoCount = 16 ∧
    (step quiet stJtagZero).go = stJtagZero.go :=
  jtag_sequence_empty_immediate.1 quiet stJtagZero rfl rfl (by decide) (by decide)

/-- C8: the streamer invariant — cursor `txedLen` never exceeds the declared
length `txLen` (and is parked at zero outside `IDLE`/`RESPOND`) — holds at
reset and is preserved by every step; and whenever the `RESPOND` state emits
a byte, the outbound `last` flag is set exactly when `txedLen + 1` equals
`txLen` for the cursor value the byte was taken at. -/
theorem streamer_cursor_invariant :
    streamerInv reset ∧
    (∀ (i : Inputs) (s : St), streamerInv s → streamerInv (step i s)) ∧
    (∀ (i : Inputs) (s : St), s.fsm = FsmState.respond →
      (step i s).streamInValid = true →
      ((step i s).streamInLast = true ↔ s.txedLen + 1 = s.txLen)) :=
  ⟨⟨Nat.le_refl 0, fun _ _ => rfl⟩, streamerInv_step, step_respond_lastiff⟩

/-- Witness for C8: one step from reset, and the `last` marking on the final
byte of a one-byte response. -/
theorem streamer_cursor_invariant_witness :
    streamerInv (step quiet reset) ∧
    ((step quiet stResp).streamInLast = true ↔ stResp.txedLen + 1 = stResp.txLen) :=
  ⟨streamer_cursor_invariant.2.1 quiet reset ⟨Nat.le_refl 0, fun _ _ => rfl⟩,
   streamer_cursor_invariant.2.2 quiet stResp rfl (by decide)⟩

/-- C9: dispatching `DAP_Disconnect` always clears both session flags and
moves to `RESPOND` without touching `go`, from any state of the flags; the
concrete double run starts with both flags raised, processes two
back-to-back Disconnect packets, gets the normal two-byte echo response each
time, and both flags read 0 after each invocation — the second invocation
reproduces the state of the first. -/
theorem disconnect_idempotent :
    (∀ (i : Inputs) (s : St), s.fsm = FsmState.rxParams → s.rxedLen = s.rxLen →
      getBits s.rxBlock 0 8 = DAP_Disconnect →
      (step i s).connected = false ∧ (step i s).running = false ∧
      (step i s).fsm = FsmState.respond ∧ (step i s).go = s.go) ∧
    (runFrom stFlagsUp trDisconnectOnce).emitted = [(3, false), (0, true)] ∧
    (runFrom stFlagsUp trDisconnectOnce).st.connected = false ∧
    (runFrom stFlagsUp trDisconnectOnce).st.running = false ∧
    (runFrom (runFrom stFlagsUp trDisconnectOnce).st trDisconnectOnce).emitted
      = [(3, false), (0, true)] ∧
    (runFrom (runFrom stFlagsUp trDisconnectOnce).st trDisconnectOnce).st.connected
      = false ∧
    (runFrom (runFrom stFlagsUp trDisconnectOnce).st trDisconnectOnce).st.running
      = false := by
  refine ⟨?_, by decide, by decide, by decide, by decide, by decide, by decide⟩
  intro i s h hlen hop
  simp [step, stepRxParams, respDisconnect, h, hlen, hop, DAP_Info, DAP_HostStatus,
    DAP_Connect, DAP_Disconnect]

/-- Witness for C9 at a concrete Disconnect dispatch with both flags set. -/
theorem disconnect_idempotent_witness :
    (step quiet stDisc).connected = false ∧ (step quiet stDisc).running = false ∧
    (step quiet stDisc).fsm = FsmState.respond ∧ (step quiet stDisc).go = stDisc.go :=
  disconnect_idempotent.1 quiet stDisc rfl rfl (by decide)

/-- C10: a `DAP_Transfer` frame with count byte 0 responds immediately with
the three bytes 0x05 0x00 0x01 and a `DAP_TransferBlock` frame with 16-bit
count 0 responds immediately with the four bytes 0x06 0x01 0x00 0x00, both
without a single `go` pulse to the engine and returning to `IDLE`. -/
theorem zero_count_transfers_immediate :
    (runFrom reset trTransferZero).emitted = [(5, false), (0, false), (1, true)] ∧
    (runFrom reset trTransferZero).goRises = 0 ∧
    (runFrom reset trTransferZero).st.fsm = FsmState.idle ∧
    (runFrom reset trTransferBlockZero).emitted =
      [(6, false), (1, false), (0, false), (0, true)] ∧
    (runFrom reset trTransferBlockZero).goRises = 0 ∧
    (runFrom reset trTransferBlockZero).st.fsm = FsmState.idle := by
  exact ⟨by decide, by decide, by decide, by decide, by decide, by decide⟩

end CmsisDap
